import Mathlib

/-!
Verification of the Verdix retrieval-augmented precedent-matching engine.

The JavaScript sources are shallowly embedded: JS numbers are modelled as
real numbers (`ℝ`) for the vector mathematics and as rationals where only
literals are compared, JS strings as `String`/`List Char`, MongoDB
collections as Lean lists of records, and every remote HTTP call (embedding
API, Indian Kanoon API, Grok LLM) as an oracle function returning
`Except String α`, mirroring resolve/reject of the wrapped promise.
-/

namespace Verdix

/-! ## Embedding service (`backend/src/services/embeddingService.js`)

`cosineSimilarity(vecA, vecB)` returns 0 on a length mismatch (the JS
`!vecA || !vecB` null guard has no counterpart for Lean lists, which are
never null), computes the dot product and the two magnitudes, returns 0
when either magnitude is zero, and otherwise divides. -/

noncomputable def cosineSimilarity (vecA vecB : List ℝ) : ℝ :=
  if vecA.length ≠ vecB.length then 0
  else if Real.sqrt ((vecA.map (fun x => x * x)).sum) = 0 ∨
          Real.sqrt ((vecB.map (fun x => x * x)).sum) = 0 then 0
  else ((List.zipWith (fun a b => a * b) vecA vecB).sum) /
       (Real.sqrt ((vecA.map (fun x => x * x)).sum) *
        Real.sqrt ((vecB.map (fun x => x * x)).sum))

/-- `createEmbedding(text)`: throws when no API key is configured, otherwise
truncates the text to 8000 characters and forwards it to the remote
embedding endpoint (modelled by the `remote` oracle); any failure is
re-thrown with a `Failed to create embedding:` prefix. -/
def createEmbedding (apiKey : Option String) (remote : String → Except String (List ℝ))
    (text : String) : Except String (List ℝ) :=
  match apiKey with
  | none => Except.error
      ("Failed to create embedding: " ++ "XAI_API_KEY is not set. Embedding features are disabled.")
  | some _ =>
    match remote (text.take 8000) with
    | Except.ok v => Except.ok v
    | Except.error e => Except.error ("Failed to create embedding: " ++ e)

lemma sumsq_nonneg (l : List ℝ) : 0 ≤ (l.map (fun x => x * x)).sum := by
  induction l with
  | nil => simp
  | cons x xs ih => simpa using add_nonneg (mul_self_nonneg x) ih

lemma sumsq_eq_zero_of_all_zero {l : List ℝ} (h : ∀ x ∈ l, x = 0) :
    (l.map (fun x => x * x)).sum = 0 := by
  apply List.sum_eq_zero
  intro y hy
  rcases List.mem_map.mp hy with ⟨x, hx, rfl⟩
  rw [h x hx, mul_zero]

/-- Cauchy–Schwarz for the truncating pointwise product of two real lists. -/
lemma zipWith_mul_sum_sq_le (a : List ℝ) :
    ∀ b : List ℝ,
      ((List.zipWith (fun x y => x * y) a b).sum) ^ 2 ≤
        ((a.map (fun x => x * x)).sum) * ((b.map (fun x => x * x)).sum) := by
  induction a with
  | nil => intro b; simp
  | cons x xs ih =>
    intro b
    cases b with
    | nil => simp
    | cons y ys =>
      simp only [List.zipWith_cons_cons, List.map_cons, List.sum_cons]
      have hA := sumsq_nonneg xs
      have hB := sumsq_nonneg ys
      have hS := ih ys
      set S := (List.zipWith (fun x y => x * y) xs ys).sum with hSdef
      set A := ((xs.map (fun x => x * x)).sum) with hAdef
      set B := ((ys.map (fun x => x * x)).sum) with hBdef
      rcases eq_or_lt_of_le hB with hB0 | hB0
      · have hS2 : S ^ 2 ≤ 0 := by
          have : A * B = 0 := by rw [← hB0, mul_zero]
          linarith [hS, this.le]
        have hS0 : S = 0 := by
          have := sq_nonneg S
          have : S ^ 2 = 0 := le_antisymm hS2 this
          exact (pow_eq_zero_iff two_ne_zero).mp this
        rw [hS0, ← hB0]
        nlinarith [mul_nonneg hA (mul_self_nonneg y)]
      · have key : B * ((x * x + A) * (y * y + B) - (x * y + S) ^ 2)
            = (x * B - y * S) ^ 2 + (y * y + B) * (A * B - S ^ 2) := by ring
        have h1 : 0 ≤ (x * B - y * S) ^ 2 + (y * y + B) * (A * B - S ^ 2) :=
          add_nonneg (sq_nonneg _)
            (mul_nonneg (add_nonneg (mul_self_nonneg y) hB) (sub_nonneg.mpr hS))
        nlinarith [key, h1, hB0]

lemma cosineSimilarity_abs_le_one (a b : List ℝ) : |cosineSimilarity a b| ≤ 1 := by
  unfold cosineSimilarity
  split
  · simp
  · split
    · simp
    · rename_i hlen hmag
      push_neg at hmag
      obtain ⟨hA0, hB0⟩ := hmag
      have hA := sumsq_nonneg a
      have hB := sumsq_nonneg b
      have hApos : 0 < Real.sqrt ((a.map (fun x => x * x)).sum) :=
        lt_of_le_of_ne (Real.sqrt_nonneg _) (Ne.symm hA0)
      have hBpos : 0 < Real.sqrt ((b.map (fun x => x * x)).sum) :=
        lt_of_le_of_ne (Real.sqrt_nonneg _) (Ne.symm hB0)
      have hcs := zipWith_mul_sum_sq_le a b
      set dot := (List.zipWith (fun x y => x * y) a b).sum with hdot
      have hsq : dot ^ 2 ≤ (Real.sqrt ((a.map (fun x => x * x)).sum) *
          Real.sqrt ((b.map (fun x => x * x)).sum)) ^ 2 := by
        rw [mul_pow, Real.sq_sqrt hA, Real.sq_sqrt hB]
        exact hcs
      have habs : |dot| ≤ Real.sqrt ((a.map (fun x => x * x)).sum) *
          Real.sqrt ((b.map (fun x => x * x)).sum) := by
        have h1 := Real.sqrt_le_sqrt hsq
        rwa [Real.sqrt_sq_eq_abs, Real.sqrt_sq (by positivity)] at h1
      rw [abs_div, abs_of_pos (mul_pos hApos hBpos)]
      exact (div_le_one (mul_pos hApos hBpos)).mpr habs

lemma cosineSimilarity_bounds (a b : List ℝ) :
    -1 ≤ cosineSimilarity a b ∧ cosineSimilarity a b ≤ 1 := by
  have h := abs_le.mp (cosineSimilarity_abs_le_one a b)
  exact ⟨h.1, h.2⟩

lemma cosineSimilarity_comm (a b : List ℝ) :
    cosineSimilarity a b = cosineSimilarity b a := by
  unfold cosineSimilarity
  rcases eq_or_ne a.length b.length with h | h
  · rw [if_neg (not_ne_iff.mpr h), if_neg (not_ne_iff.mpr h.symm)]
    rw [List.zipWith_comm_of_comm (fun x y => x * y) mul_comm a b]
    rcases Classical.em (Real.sqrt ((a.map (fun x => x * x)).sum) = 0 ∨
        Real.sqrt ((b.map (fun x => x * x)).sum) = 0) with hc | hc
    · rw [if_pos hc, if_pos (Or.symm hc)]
    · rw [if_neg hc, if_neg (fun hx => hc (Or.symm hx)), mul_comm]
  · rw [if_pos h, if_pos (Ne.symm h)]

lemma cosineSimilarity_zero_cases (a b : List ℝ)
    (h : a = [] ∨ b = [] ∨ (∀ x ∈ a, x = 0) ∨ (∀ x ∈ b, x = 0) ∨ a.length ≠ b.length) :
    cosineSimilarity a b = 0 := by
  unfold cosineSimilarity
  rcases eq_or_ne a.length b.length with hlen | hlen
  · rw [if_neg (not_ne_iff.mpr hlen)]
    have hzero : Real.sqrt ((a.map (fun x => x * x)).sum) = 0 ∨
        Real.sqrt ((b.map (fun x => x * x)).sum) = 0 := by
      rcases h with h | h | h | h | h
      · subst h
        left; simp
      · subst h
        right; simp
      · left; rw [sumsq_eq_zero_of_all_zero h, Real.sqrt_zero]
      · right; rw [sumsq_eq_zero_of_all_zero h, Real.sqrt_zero]
      · exact absurd hlen h
    rw [if_pos hzero]
  · rw [if_pos hlen]

/-! ## Precedent records (`backend/src/models/CasePrecedent.js`)

The MongoDB collection is modelled as a `List CasePrecedent`; the Mongo
`_id` becomes a numeric `id`.  The `embedding` path is declared
`{ type: [Number], default: null }`; Mongoose materialises an array path
on every document it saves (the array default `[]` wins over the declared
`null`), and `deleteIndex` writes an explicit `null`, so the field must be
modelled as a tri-state: absent from the document, present holding
`null`, or present holding an array. -/

/-- The stored value of the `embedding` path of one document. -/
inductive EmbeddingField where
  | absent : EmbeddingField
  | null : EmbeddingField
  | arr : List ℝ → EmbeddingField

/-- Mongo `{$exists: true}`: the field is present on the document,
whatever its value (`null` and `[]` included). -/
def EmbeddingField.isPresent : EmbeddingField → Bool
  | EmbeddingField.absent => false
  | _ => true

structure CasePrecedent where
  id : ℕ
  caseNumber : String
  title : String
  year : ℕ := 0
  court : String := "Unknown"
  judges : List String := []
  facts : String := ""
  decision : String := ""
  summary : String := ""
  ipcSections : List String := []
  keywords : List String := []
  sourceId : String := ""
  kanoonUrl : String := ""
  embedding : EmbeddingField := EmbeddingField.arr []

/-! ## Vector store (`backend/src/services/vectorStoreService.js`) -/

/-- One ranked result of `searchSimilarCases`. -/
structure SimilarCase where
  caseId : ℕ
  caseNumber : String
  title : String
  similarity : ℝ
  content : String

/-- JS falsy chain `caseData.summary || caseData.facts || caseData.title`
(an empty string is falsy). -/
def contentOf (c : CasePrecedent) : String :=
  if c.summary ≠ "" then c.summary else if c.facts ≠ "" then c.facts else c.title

/-- The descending-similarity order realised by the JS comparator
`(a, b) => b.similarity - a.similarity`. -/
def simDesc (x y : SimilarCase) : Prop := y.similarity ≤ x.similarity

noncomputable instance : DecidableRel simDesc := fun _ _ => Real.decidableLE _ _

instance : IsTotal SimilarCase simDesc := ⟨fun a b => le_total b.similarity a.similarity⟩

instance : IsTrans SimilarCase simDesc := ⟨fun _ _ _ hab hbc => le_trans hbc hab⟩

/-- The call `cosineSimilarity(queryEmbedding, caseData.embedding)` on a
stored field: the JS `!vecB` guard returns 0 for a `null` (or missing)
field, and `cosineSimilarity` itself returns 0 for the array default
`[]`. -/
noncomputable def storedSimilarity (queryEmbedding : List ℝ) : EmbeddingField → ℝ
  | EmbeddingField.arr l => cosineSimilarity queryEmbedding l
  | _ => 0

/-- `VectorStore.searchSimilarCases(query, k)`: load every document
matching `{embedding: {$exists: true}}` — which is every app-saved
document, embedded or not, since the array path is always materialised —
short-circuit to `[]` when that set is empty, embed the query (`embed` is
the `createEmbedding` call, which may reject), score each case, sort
descending and take `k`.  ES2019 `Array.prototype.sort` is stable and
sorts by the comparator, which insertion sort realises exactly. -/
noncomputable def searchSimilarCases (embed : String → Except String (List ℝ))
    (store : List CasePrecedent) (query : String) (k : ℕ) :
    Except String (List SimilarCase) :=
  if (store.filter (fun c => c.embedding.isPresent)).isEmpty then Except.ok []
  else
    match embed query with
    | Except.error e => Except.error e
    | Except.ok queryEmbedding =>
        Except.ok ((List.insertionSort simDesc
          ((store.filter (fun c => c.embedding.isPresent)).map (fun caseData =>
            { caseId := caseData.id
              caseNumber := caseData.caseNumber
              title := caseData.title
              similarity := storedSimilarity queryEmbedding caseData.embedding
              content := contentOf caseData }))).take k)

/-- `VectorStore.deleteIndex(caseId)`:
`findByIdAndUpdate(caseId, {embedding: null})` stores an explicit `null`
in the embedding path — the field stays present on the document. -/
def deleteIndex (store : List CasePrecedent) (caseId : ℕ) : List CasePrecedent :=
  store.map (fun r =>
    if r.id = caseId then { r with embedding := EmbeddingField.null } else r)

/-! ## Theorems for the similarity search (claims C1, C2, C8, C9) -/

/-- C2: `cosineSimilarity` is symmetric, its result always lies in
`[-1, 1]`, and it returns exactly 0 whenever either input vector is empty,
all-zero, or the two vectors have mismatched lengths. -/
theorem cosineSimilarity_spec (a b : List ℝ) :
    cosineSimilarity a b = cosineSimilarity b a ∧
    (-1 ≤ cosineSimilarity a b ∧ cosineSimilarity a b ≤ 1) ∧
    ((a = [] ∨ b = [] ∨ (∀ x ∈ a, x = 0) ∨ (∀ x ∈ b, x = 0) ∨ a.length ≠ b.length) →
      cosineSimilarity a b = 0) :=
  ⟨cosineSimilarity_comm a b, cosineSimilarity_bounds a b, cosineSimilarity_zero_cases a b⟩

/-- Witness for C2 at the concrete vectors `[0, 0]` and `[1, 2]`. -/
theorem cosineSimilarity_spec_witness :
    cosineSimilarity [0, 0] [1, 2] = cosineSimilarity [1, 2] [0, 0] ∧
    cosineSimilarity [0, 0] [1, 2] = 0 :=
  ⟨(cosineSimilarity_spec [0, 0] [1, 2]).1,
   (cosineSimilarity_spec [0, 0] [1, 2]).2.2 (Or.inr (Or.inr (Or.inl (by simp))))⟩

/-- C1: the claimed bound fails on the code.  A de-indexed precedent
(`deleteIndex` stores an explicit `null`, leaving the `embedding` field
present) still matches `{embedding: {$exists: true}}`, so with zero
precedents carrying a non-null embedding the search returns one result of
similarity 0 instead of the claimed empty sequence, and its length 1
exceeds `min(k, 0) = 0`. -/
theorem searchSimilarCases_scans_unembedded :
    (deleteIndex
        [{ id := 0, caseNumber := "CN", title := "T",
           embedding := EmbeddingField.arr [2] }] 0
      = [{ id := 0, caseNumber := "CN", title := "T",
           embedding := EmbeddingField.null }]) ∧
    (searchSimilarCases (fun _ => Except.ok [(1 : ℝ)])
        [{ id := 0, caseNumber := "CN", title := "T",
           embedding := EmbeddingField.null }] "q" 5
      = Except.ok
          [{ caseId := 0, caseNumber := "CN", title := "T",
             similarity := storedSimilarity [1] EmbeddingField.null,
             content := "T" }]) ∧
    storedSimilarity [1] EmbeddingField.null = 0 :=
  ⟨rfl, rfl, rfl⟩

/-- C8 counterexample: a local retrieval result can carry a strictly
negative similarity (here `-1`), so `similarity ∈ [0, 1]` fails on the
code; `cosineSimilarity` ranges over `[-1, 1]` and `searchSimilarCases`
does not clamp it. -/
theorem searchSimilarCases_similarity_below_zero :
    ∃ l, searchSimilarCases (fun _ => Except.ok [(1 : ℝ)])
        [{ id := 1, caseNumber := "CN", title := "T",
           embedding := EmbeddingField.arr [(-1 : ℝ)] }]
        "q" 5 = Except.ok l ∧ ∃ r ∈ l, r.similarity < 0 := by
  refine ⟨_, rfl, _, List.mem_singleton_self _, ?_⟩
  show cosineSimilarity [1] [(-1 : ℝ)] < 0
  have h1 : ((([1] : List ℝ).map (fun x => x * x)).sum) = 1 := by norm_num
  have h2 : ((([(-1 : ℝ)] : List ℝ).map (fun x => x * x)).sum) = 1 := by norm_num
  simp only [cosineSimilarity, h1, h2, Real.sqrt_one]
  norm_num

lemma storedSimilarity_bounds (qe : List ℝ) (f : EmbeddingField) :
    -1 ≤ storedSimilarity qe f ∧ storedSimilarity qe f ≤ 1 := by
  cases f with
  | arr l => exact cosineSimilarity_bounds qe l
  | absent => constructor <;> norm_num [storedSimilarity]
  | null => constructor <;> norm_num [storedSimilarity]

/-- C8 (amended): every match produced by local vector retrieval has a
similarity value lying in `[-1, 1]`. -/
theorem searchSimilarCases_similarity_bounds (embed : String → Except String (List ℝ))
    (store : List CasePrecedent) (query : String) (k : ℕ) (l : List SimilarCase)
    (hl : searchSimilarCases embed store query k = Except.ok l) :
    ∀ r ∈ l, -1 ≤ r.similarity ∧ r.similarity ≤ 1 := by
  intro r hr
  by_cases h : (store.filter (fun c => c.embedding.isPresent)).isEmpty
  · rw [searchSimilarCases, if_pos h] at hl
    injection hl with h2
    subst h2
    exact absurd hr (List.not_mem_nil r)
  · rw [searchSimilarCases, if_neg h] at hl
    cases hembed : embed query with
    | error e => rw [hembed] at hl; simp at hl
    | ok qe =>
        rw [hembed] at hl
        injection hl with h2
        subst h2
        have h3 := List.take_subset _ _ hr
        have h4 := (List.perm_insertionSort simDesc _).subset h3
        rcases List.mem_map.mp h4 with ⟨c, _, rfl⟩
        exact storedSimilarity_bounds _ _

/-- Witness for the amended C8 at a concrete one-precedent store. -/
theorem searchSimilarCases_similarity_bounds_witness :
    -1 ≤ cosineSimilarity [2] [3] ∧ cosineSimilarity [2] [3] ≤ 1 := by
  have h := searchSimilarCases_similarity_bounds (fun _ => Except.ok [(2 : ℝ)])
    [{ id := 1, caseNumber := "CN", title := "T",
       embedding := EmbeddingField.arr [(3 : ℝ)] }]
    "q" 5 _ rfl
  exact h _ (List.mem_singleton_self _)

/-! ## JS regex models over character lists

The regex literals used by `kanoonService._extractIPCSections` and
`ragService.parseAnalysisResponse` are modelled as explicit backtracking
matchers over `List Char`.  Every pattern consumes at least one character
on success, so a fuel of `length + 1` lets the scan run to the end of the
text.  The `i` flag is modelled by comparing lower-cased characters. -/

/-- JS `\s` on the ASCII range. -/
def jsWhitespace (c : Char) : Bool :=
  c = ' ' || c = '\t' || c = '\n' || c = '\r' || c = Char.ofNat 11 || c = Char.ofNat 12

/-- Case-insensitive character comparison (the `i` flag). -/
def charCI (a b : Char) : Bool := a.toLower = b.toLower

/-- Consume the literal `pat` (case-insensitively) from the head of `cs`. -/
def matchCI : List Char → List Char → Option (List Char)
  | [], cs => some cs
  | _ :: _, [] => none
  | p :: ps, c :: cs => if charCI c p then matchCI ps cs else none

/-- `\s+` (greedy): consume one or more whitespace characters. -/
def wsPlus : List Char → Option (List Char)
  | c :: cs => if jsWhitespace c then some (cs.dropWhile jsWhitespace) else none
  | [] => none

/-- A character of the class `[:\s]`. -/
def sepChar (c : Char) : Bool := c = ':' || jsWhitespace c

/-- `[:\s]+` (greedy): one or more colons or whitespace characters. -/
def sepPlus : List Char → Option (List Char)
  | c :: cs => if sepChar c then some (cs.dropWhile sepChar) else none
  | [] => none

/-- `(\d+)` (greedy): a nonempty digit run and the rest. -/
def digitsPlus (cs : List Char) : Option (List Char × List Char) :=
  let ds := cs.takeWhile Char.isDigit
  if ds.isEmpty then none else some (ds, cs.dropWhile Char.isDigit)

/-- `(\d+[A-Z]?)` under the `i` flag: digits, then one optional ASCII
letter (greedily taken; no later element of any of the modelled patterns
can match a letter, so no backtracking over the option is needed). -/
def digitsOptLetter (cs : List Char) : Option (List Char × List Char) :=
  match digitsPlus cs with
  | none => none
  | some (ds, rest) =>
    match rest with
    | c :: rest2 => if c.isAlpha then some (ds ++ [c], rest2) else some (ds, rest)
    | [] => some (ds, [])

/-- One `regex.exec` sweep with the `g` flag: repeatedly find the leftmost
match, collect its capture, and continue after the matched text. -/
def scanMatches (tryMatch : List Char → Option (String × List Char)) :
    Nat → List Char → List String
  | 0, _ => []
  | _ + 1, [] => []
  | fuel + 1, c :: cs =>
    match tryMatch (c :: cs) with
    | some (cap, rest) => cap :: scanMatches tryMatch fuel rest
    | none => scanMatches tryMatch fuel cs

/-- `(?:IPC|I\.P\.C|of the IPC)`, alternatives tried left to right. -/
def ipcSuffix (cs : List Char) : Option (List Char) :=
  (matchCI "ipc".toList cs).orElse (fun _ =>
    (matchCI "i.p.c".toList cs).orElse (fun _ => matchCI "of the ipc".toList cs))

/-- `/Section\s+(\d+[A-Z]?)\s+(?:IPC|I\.P\.C|of the IPC)/gi` at one position. -/
def tryP1 (cs : List Char) : Option (String × List Char) := do
  let r1 ← matchCI "section".toList cs
  let r2 ← wsPlus r1
  let (cap, r3) ← digitsOptLetter r2
  let r4 ← wsPlus r3
  let r5 ← ipcSuffix r4
  some (String.mk cap, r5)

/-- `/S\.\s+(\d+[A-Z]?)\s+(?:IPC|I\.P\.C)/gi` at one position. -/
def tryP2 (cs : List Char) : Option (String × List Char) := do
  let r1 ← matchCI "s.".toList cs
  let r2 ← wsPlus r1
  let (cap, r3) ← digitsOptLetter r2
  let r4 ← wsPlus r3
  let r5 ← (matchCI "ipc".toList r4).orElse (fun _ => matchCI "i.p.c".toList r4)
  some (String.mk cap, r5)

/-- `/IPC\s+Section\s+(\d+[A-Z]?)/gi` at one position. -/
def tryP3 (cs : List Char) : Option (String × List Char) := do
  let r1 ← matchCI "ipc".toList cs
  let r2 ← wsPlus r1
  let r3 ← matchCI "section".toList r2
  let r4 ← wsPlus r3
  let (cap, r5) ← digitsOptLetter r4
  some (String.mk cap, r5)

/-- `/Article\s+(\d+)/gi` at one position. -/
def tryP4 (cs : List Char) : Option (String × List Char) := do
  let r1 ← matchCI "article".toList cs
  let r2 ← wsPlus r1
  let (cap, r3) ← digitsPlus r2
  some (String.mk cap, r3)

/-- JS `Set.prototype.add`: append if absent, preserving insertion order. -/
def setAdd (s : List String) (x : String) : List String :=
  if x ∈ s then s else s ++ [x]

/-- The regex half of `_extractIPCSections`: each match is added to the set
only while `sections.size < 20` (the guard is evaluated before each add). -/
def addCapped (s : List String) (xs : List String) : List String :=
  xs.foldl (fun acc x => if acc.length < 20 then setAdd acc x else acc) s

/-! ## Kanoon IPC-section extraction (`kanoonService._extractIPCSections`) -/

/-- The raw Kanoon API document shape consumed by `_extractIPCSections`
(structured `ipc_sections` entries are modelled as the strings they
contribute; the `{section}` object variant contributes its `section`
string the same way). -/
structure KanoonDoc where
  title : String := ""
  judgment : String := ""
  facts : String := ""
  summary : String := ""
  ipc_sections : List String := []

/-- `_extractIPCSections(data)`: seed the set with the structured section
list, then scan `title + judgment + facts + summary` (joined by spaces)
with the four patterns in order, adding unique matches while the set holds
fewer than 20, and finally return the first 15 entries. -/
def extractIPCSections (data : KanoonDoc) : List String :=
  let step1 := data.ipc_sections.foldl setAdd []
  let textToSearch :=
    String.intercalate " " [data.title, data.judgment, data.facts, data.summary]
  let cs := textToSearch.toList
  let fuel := cs.length + 1
  let step2 := addCapped step1 (scanMatches tryP1 fuel cs)
  let step3 := addCapped step2 (scanMatches tryP2 fuel cs)
  let step4 := addCapped step3 (scanMatches tryP3 fuel cs)
  let step5 := addCapped step4 (scanMatches tryP4 fuel cs)
  step5.take 15

/-! ## LLM response parsing (`ragService.parseAnalysisResponse`) -/

/-- `(?:Section|Sec\.?)\s+(\d+[A-Z]?)`: try `Section`, then `Sec.`,
then `Sec`, each followed by whitespace and the captured number. -/
def sectionTail (r : List Char) : Option (String × List Char) := do
  let r2 ← wsPlus r
  let (cap, r3) ← digitsOptLetter r2
  some (String.mk cap, r3)

def sectionKw (cs : List Char) : Option (String × List Char) :=
  ((matchCI "section".toList cs).bind sectionTail).orElse (fun _ =>
    (matchCI "sec".toList cs).bind (fun r =>
      ((matchCI ".".toList r).bind sectionTail).orElse (fun _ => sectionTail r)))

/-- `/(?:IPC\s+)?(?:Section|Sec\.?)\s+(\d+[A-Z]?)/gi` at one position:
the optional `IPC\s+` prefix is tried first, backtracking to the bare
keyword when the full attempt fails. -/
def tryIpcRef (cs : List Char) : Option (String × List Char) :=
  (do
    let r1 ← matchCI "ipc".toList cs
    let r2 ← wsPlus r1
    sectionKw r2).orElse (fun _ => sectionKw cs)

/-- All `IPC Section N` strings pushed by the exec loop, in match order. -/
def ipcRefMatches (response : String) : List String :=
  let cs := response.toList
  (scanMatches tryIpcRef (cs.length + 1) cs).map (fun m => "IPC Section " ++ m)

/-- `[...new Set(ipcMatches)]`: deduplicate, keeping first occurrences. -/
def suggestedIPCsOf (response : String) : List String :=
  (ipcRefMatches response).foldl setAdd []

/-- A sequence of literal words joined by `\s+`. -/
def matchWords : List String → List Char → Option (List Char)
  | [], cs => some cs
  | [w], cs => matchCI w.toList cs
  | w :: ws, cs => do
    let r1 ← matchCI w.toList cs
    let r2 ← wsPlus r1
    matchWords ws r2

/-- The lookahead `(?=\n\n|\n[A-Z]|$)`; under the `i` flag `[A-Z]`
matches any ASCII letter. -/
def lookaheadStop (cs : List Char) : Bool :=
  match cs with
  | [] => true
  | '\n' :: '\n' :: _ => true
  | '\n' :: c :: _ => c.isAlpha
  | _ => false

/-- The lazy capture `([\s\S]*?)`: extend until the first position where
the lookahead holds (the `$` alternative guarantees termination at the end
of the text, so the greedy separator before it never backtracks). -/
def lazyCapture : List Char → List Char
  | [] => []
  | c :: cs => if lookaheadStop (c :: cs) then [] else c :: lazyCapture cs

/-- One alternative of a labelled-block regex at one position: the keyword
words, then `[:\s]+`, then the lazy capture. -/
def tryLabel : List (List String) → List Char → Option String
  | [], _ => none
  | alt :: alts, cs =>
    (do
      let r1 ← matchWords alt cs
      let r2 ← sepPlus r1
      some (String.mk (lazyCapture r2))).orElse (fun _ => tryLabel alts cs)

/-- `response.match(/(?:KW1|KW2|…)[:\s]+([\s\S]*?)(?=\n\n|\n[A-Z]|$)/i)`:
the capture of the leftmost match, if any. -/
def findLabeledBlock (alts : List (List String)) : Nat → List Char → Option String
  | 0, _ => none
  | _ + 1, [] => none
  | fuel + 1, c :: cs =>
    match tryLabel alts (c :: cs) with
    | some cap => some cap
    | none => findLabeledBlock alts fuel cs

/-- JS `\w`. -/
def wordChar (c : Char) : Bool := c.isAlphanum || c = '_'

/-- `/Risk\s+Assessment[:\s]+(\w+)(?:\s*\/\s*\w+)?/i` at one position;
only the first captured word is used by the caller. -/
def tryRisk (cs : List Char) : Option String := do
  let r1 ← matchCI "risk".toList cs
  let r2 ← wsPlus r1
  let r3 ← matchCI "assessment".toList r2
  let r4 ← sepPlus r3
  let w := r4.takeWhile wordChar
  if w.isEmpty then none else some (String.mk w)

def findRisk : Nat → List Char → Option String
  | 0, _ => none
  | _ + 1, [] => none
  | fuel + 1, c :: cs =>
    match tryRisk (c :: cs) with
    | some w => some w
    | none => findRisk fuel cs

/-- JS `String.prototype.trim`. -/
def jsTrim (s : String) : String :=
  String.mk (((s.toList.dropWhile jsWhitespace).reverse.dropWhile jsWhitespace).reverse)

/-- `s.split('\n')[0]`. -/
def firstLine (s : String) : String :=
  String.mk (s.toList.takeWhile (fun c => c ≠ '\n'))

/-- The structured output of one RAG parse (`analyzedAt` is dropped from
the model). -/
structure AnalysisResult where
  suggestedIPCs : List String
  summary : String
  analysis : String
  keyArguments : String
  possibleVerdict : String
  riskLevel : String
  recommendations : String
  confidence : ℚ
deriving DecidableEq

/-- `parseAnalysisResponse(response)`, non-exception path. -/
def parseAnalysisResponse (response : String) : AnalysisResult :=
  let suggestedIPCs := suggestedIPCsOf response
  let cs := response.toList
  let fuel := cs.length + 1
  let possibleVerdict :=
    match findLabeledBlock [["verdict"], ["outcome"]] fuel cs with
    | some cap => firstLine (jsTrim cap)
    | none => "Analysis required"
  let riskLevel := (findRisk fuel cs).getD "Medium"
  let keyArguments :=
    match findLabeledBlock [["key", "legal", "arguments"], ["arguments"]] fuel cs with
    | some cap => jsTrim cap
    | none => "Refer to detailed analysis."
  let recommendations :=
    match findLabeledBlock
        [["strategic", "roadmap"], ["recommended", "steps"], ["actions"]] fuel cs with
    | some cap => jsTrim cap
    | none => ""
  { suggestedIPCs := if 0 < suggestedIPCs.length then suggestedIPCs else ["Analysis required"]
    summary := response.take 500
    analysis := response
    keyArguments := keyArguments
    possibleVerdict := possibleVerdict
    riskLevel := riskLevel
    recommendations := recommendations
    confidence := if 0 < suggestedIPCs.length then 0.90 else 0.60 }

/-- The `catch` branch of `parseAnalysisResponse` (reached in JS only when
a parsing operation throws): every field falls back and confidence is 0.5. -/
def parseAnalysisResponseCatch (response : String) : AnalysisResult :=
  { suggestedIPCs := []
    summary := response
    analysis := response
    keyArguments := ""
    possibleVerdict := "Analysis required"
    riskLevel := "Medium"
    recommendations := ""
    confidence := 0.5 }

/-! ## Theorems for extraction and parsing (claims C3, C7) -/

lemma setAdd_nodup {s : List String} {x : String} (h : s.Nodup) : (setAdd s x).Nodup := by
  unfold setAdd
  split
  · exact h
  · rename_i hx
    simp [List.nodup_append, h, hx]

lemma foldl_setAdd_nodup (xs : List String) :
    ∀ s : List String, s.Nodup → (xs.foldl setAdd s).Nodup := by
  induction xs with
  | nil => intro s h; exact h
  | cons x xs ih => intro s h; exact ih _ (setAdd_nodup h)

lemma addCapped_nodup (xs : List String) :
    ∀ s : List String, s.Nodup → (addCapped s xs).Nodup := by
  induction xs with
  | nil => intro s h; exact h
  | cons x xs ih =>
      intro s h
      unfold addCapped at *
      simp only [List.foldl_cons]
      apply ih
      split
      · exact setAdd_nodup h
      · exact h

/-- C7: IPC-section extraction returns each section identifier at most
once, its result never exceeds 20 entries, and on the example text it
yields exactly `["302", "34"]`. -/
theorem extractIPCSections_spec :
    (∀ d : KanoonDoc, (extractIPCSections d).Nodup ∧ (extractIPCSections d).length ≤ 20) ∧
    extractIPCSections { title := "convicted under Section 302 IPC and S. 34 IPC" } =
      ["302", "34"] := by
  constructor
  · intro d
    constructor
    · apply List.Nodup.sublist (List.take_sublist _ _)
      apply addCapped_nodup
      apply addCapped_nodup
      apply addCapped_nodup
      apply addCapped_nodup
      exact foldl_setAdd_nodup _ _ List.nodup_nil
    · calc (extractIPCSections d).length ≤ 15 := by
            unfold extractIPCSections
            rw [List.length_take]
            exact min_le_left _ _
        _ ≤ 20 := by norm_num
  · rfl

/-- C3 counterexample: on a response with zero section mentions the
confidence is 0.60 and `suggestedIPCs` defaults, but `riskLevel` follows
its own regex (here `"High"`), contradicting the claim that a 0.60
confidence forces `riskLevel = "Medium"` (and the verdict default). -/
theorem parseAnalysisResponse_defaults_not_coupled :
    (parseAnalysisResponse "Risk Assessment: High").confidence = 0.60 ∧
    (parseAnalysisResponse "Risk Assessment: High").suggestedIPCs = ["Analysis required"] ∧
    (parseAnalysisResponse "Risk Assessment: High").riskLevel = "High" ∧
    (parseAnalysisResponse "Risk Assessment: High").riskLevel ≠ "Medium" :=
  ⟨rfl, rfl, rfl, by decide⟩

/-- C3 (amended): on the non-exception path the confidence is 0.90 exactly
when at least one statutory-section mention was extracted and 0.60
otherwise, in which case `suggestedIPCs` defaults to
`["Analysis required"]`; the verdict and risk defaults are tied to their
own labels, not to section extraction; the catch branch yields exactly
0.5, so no other confidence value occurs. -/
theorem parseAnalysisResponse_confidence_spec (response : String) :
    ((parseAnalysisResponse response).confidence = 0.90 ∨
      (parseAnalysisResponse response).confidence = 0.60) ∧
    ((parseAnalysisResponse response).confidence = 0.90 ↔ suggestedIPCsOf response ≠ []) ∧
    ((parseAnalysisResponse response).confidence = 0.60 →
      (parseAnalysisResponse response).suggestedIPCs = ["Analysis required"]) ∧
    (parseAnalysisResponseCatch response).confidence = 0.5 := by
  have hconf : (parseAnalysisResponse response).confidence =
      if 0 < (suggestedIPCsOf response).length then (0.90 : ℚ) else 0.60 := rfl
  have hipc : (parseAnalysisResponse response).suggestedIPCs =
      if 0 < (suggestedIPCsOf response).length then suggestedIPCsOf response
      else ["Analysis required"] := rfl
  by_cases h : 0 < (suggestedIPCsOf response).length
  · rw [hconf, hipc, if_pos h, if_pos h]
    exact ⟨Or.inl rfl, ⟨fun _ => List.length_pos.mp h, fun _ => rfl⟩,
      fun hc => absurd hc (by norm_num), rfl⟩
  · rw [hconf, hipc, if_neg h, if_neg h]
    refine ⟨Or.inr rfl, ⟨fun hc => absurd hc (by norm_num), fun hne => ?_⟩,
      fun _ => rfl, rfl⟩
    exact absurd (List.eq_nil_of_length_eq_zero (Nat.le_zero.mp (Nat.not_lt.mp h))) hne

/-- Witness for the amended C3 at two concrete responses. -/
theorem parseAnalysisResponse_confidence_spec_witness :
    (parseAnalysisResponse "Section 302 IPC applies").confidence = 0.90 ∧
    (parseAnalysisResponse "nothing to see").suggestedIPCs = ["Analysis required"] := by
  constructor
  · exact ((parseAnalysisResponse_confidence_spec "Section 302 IPC applies").2.1).mpr
      (by decide)
  · exact (parseAnalysisResponse_confidence_spec "nothing to see").2.2.1 rfl

/-! ## Vector store bulk indexing (`VectorStore.indexCase` / `indexAllCases`) -/

/-- The text representation built by `VectorStore.indexCase`. -/
def caseText (caseData : CasePrecedent) : String :=
  "\n        Case Number: " ++ caseData.caseNumber ++
  "\n        Title: " ++ caseData.title ++
  "\n        Year: " ++ toString caseData.year ++
  "\n        Court: " ++ caseData.court ++
  "\n        IPC Sections: " ++ String.intercalate ", " caseData.ipcSections ++
  "\n        Facts: " ++ caseData.facts ++
  "\n        Summary: " ++ caseData.summary ++
  "\n        Decision: " ++ caseData.decision ++
  "\n        Keywords: " ++ String.intercalate ", " caseData.keywords ++
  "\n      "

/-- `VectorStore.indexCase(caseData)`: embed the case text and write the
embedding onto the record; a failed embedding call propagates to the
caller. -/
def indexCase (embed : String → Except String (List ℝ)) (store : List CasePrecedent)
    (caseData : CasePrecedent) : Except String (List CasePrecedent) :=
  match embed (caseText caseData) with
  | Except.error e => Except.error e
  | Except.ok v =>
      Except.ok (store.map (fun r =>
        if r.id = caseData.id then { r with embedding := EmbeddingField.arr v } else r))

/-- `VectorStore.indexAllCases()`: iterate over the records matching
`{embedding: {$exists: false}}` — only documents genuinely lacking the
field, which no app-saved document does, since the array path is always
materialised — catching and skipping any per-item failure, and return the
number of records that were found to index. -/
def indexAllCases (embed : String → Except String (List ℝ))
    (store : List CasePrecedent) : ℕ × List CasePrecedent :=
  let cases := store.filter (fun c => !c.embedding.isPresent)
  (cases.length,
   cases.foldl (fun st c =>
     match indexCase embed st c with
     | Except.ok st2 => st2
     | Except.error _ => st) store)

/-! ## Kanoon service: persistence and batch sync (`kanoonService.js`) -/

/-- The parsed case data produced by `_parseCaseResponse` (the fields the
persistence path uses). -/
structure CaseData where
  sourceId : String
  kanoonUrl : String
  caseNumber : String
  title : String
  year : ℕ := 0
  court : String := "Unknown Court"
  facts : String := ""
  decision : String := ""
  summary : String := ""
  ipcSections : List String := []
  keywords : List String := []

/-- `new CasePrecedent({...caseData, year: caseData.year || currentYear})`
(`0` is the falsy year); the Mongo `_id` is modelled by a fresh numeric
id. -/
def toRecord (cd : CaseData) (freshId : ℕ) (nowYear : ℕ) : CasePrecedent :=
  { id := freshId
    caseNumber := cd.caseNumber
    title := cd.title
    year := if cd.year = 0 then nowYear else cd.year
    court := cd.court
    facts := cd.facts
    decision := cd.decision
    summary := cd.summary
    ipcSections := cd.ipcSections
    keywords := cd.keywords
    sourceId := cd.sourceId
    kanoonUrl := cd.kanoonUrl
    embedding := EmbeddingField.arr [] }

/-- The duplicate check `findOne({$or: [{sourceId}, {kanoonUrl}]})`: the
first stored record whose `sourceId` or `kanoonUrl` matches. -/
def findDuplicate (store : List CasePrecedent) (cd : CaseData) : Option CasePrecedent :=
  store.find? (fun r => r.sourceId == cd.sourceId || r.kanoonUrl == cd.kanoonUrl)

/-- `_saveCaseToDatabase(caseData)`: return the existing record unmodified
when a duplicate is found, otherwise append a new record and return it. -/
def saveCaseToDatabase (store : List CasePrecedent) (cd : CaseData) (nowYear : ℕ) :
    List CasePrecedent × CasePrecedent :=
  match findDuplicate store cd with
  | some existingCase => (store, existingCase)
  | none =>
      let newCase := toRecord cd store.length nowYear
      (store ++ [newCase], newCase)

/-- One hit of `searchCases(...).docs` (the fields the sync and RAG loops
use). -/
structure SearchDoc where
  tid : String
  title : String
  headline : String := ""

structure SyncStats where
  searchedQueries : ℕ := 0
  casesFound : ℕ := 0
  casesFetched : ℕ := 0
  casesIndexed : ℕ := 0
  errors : ℕ := 0

structure FailedCase where
  query : String
  docid : Option String := none
  title : Option String := none
  error : String

/-- External-call oracles and the clock for the Kanoon sync loop. -/
structure KanoonEnv where
  searchCases : String → Except String (List SearchDoc)
  fetchCaseDetails : String → Except String CaseData
  nowYear : ℕ

/-- The accumulating state of one `fetchAndIndexCases` run. -/
structure SyncState where
  store : List CasePrecedent
  indexedCases : List CasePrecedent := []
  failedCases : List FailedCase := []
  stats : SyncStats := {}

/-- The body of the inner per-document loop: fetch the full document and
save it; a failure appends exactly one failure record (query, document id,
title, message) and bumps the error count, leaving everything else
untouched. -/
def processDoc (env : KanoonEnv) (query : String) (st : SyncState) (doc : SearchDoc) :
    SyncState :=
  match env.fetchCaseDetails doc.tid with
  | Except.error e =>
      { st with
        failedCases := st.failedCases ++
          [{ query := query, docid := some doc.tid, title := some doc.title, error := e }]
        stats := { st.stats with errors := st.stats.errors + 1 } }
  | Except.ok caseData =>
      let st2 := { st with
        stats := { st.stats with casesFetched := st.stats.casesFetched + 1 } }
      let saved := saveCaseToDatabase st2.store caseData env.nowYear
      { st2 with
        store := saved.1
        indexedCases := st2.indexedCases ++ [saved.2]
        stats := { st2.stats with casesIndexed := st2.stats.casesIndexed + 1 } }

/-- The body of the outer per-query loop: count the query, search, skip
silently on an empty result, record a single failure on a search error,
otherwise fetch up to `limit` of the returned documents. -/
def processQuery (env : KanoonEnv) (limit : ℕ) (st : SyncState) (query : String) :
    SyncState :=
  let st1 := { st with
    stats := { st.stats with searchedQueries := st.stats.searchedQueries + 1 } }
  match env.searchCases query with
  | Except.error e =>
      { st1 with
        failedCases := st1.failedCases ++ [{ query := query, error := e }]
        stats := { st1.stats with errors := st1.stats.errors + 1 } }
  | Except.ok docs =>
      if docs.isEmpty then st1
      else
        let st2 := { st1 with
          stats := { st1.stats with casesFound := st1.stats.casesFound + docs.length } }
        (docs.take limit).foldl (processDoc env query) st2

structure SyncReport where
  success : Bool
  stats : SyncStats
  indexed : ℕ
  failed : ℕ
  cases : List CasePrecedent
  errors : List FailedCase

/-- `fetchAndIndexCases(queries, limit)`: fold the per-query body over all
queries and assemble the report (`success: indexedCases.length > 0`). -/
def fetchAndIndexCases (env : KanoonEnv) (queries : List String) (limit : ℕ)
    (store : List CasePrecedent) : SyncReport × List CasePrecedent :=
  let final := queries.foldl (processQuery env limit) { store := store }
  ({ success := decide (0 < final.indexedCases.length),
     stats := final.stats,
     indexed := final.indexedCases.length,
     failed := final.failedCases.length,
     cases := final.indexedCases,
     errors := final.failedCases }, final.store)

/-! ## Theorems for persistence and batch sync (claims C5, C6, C10) -/

lemma processDoc_searchedQueries (env : KanoonEnv) (query : String) (st : SyncState)
    (doc : SearchDoc) :
    (processDoc env query st doc).stats.searchedQueries = st.stats.searchedQueries := by
  cases h : env.fetchCaseDetails doc.tid <;> simp [processDoc, h]

lemma foldl_processDoc_searchedQueries (env : KanoonEnv) (query : String)
    (docs : List SearchDoc) :
    ∀ st : SyncState, (docs.foldl (processDoc env query) st).stats.searchedQueries
      = st.stats.searchedQueries := by
  induction docs with
  | nil => intro st; rfl
  | cons d ds ih =>
      intro st
      rw [List.foldl_cons, ih, processDoc_searchedQueries]

lemma processQuery_searchedQueries (env : KanoonEnv) (limit : ℕ) (st : SyncState)
    (query : String) :
    (processQuery env limit st query).stats.searchedQueries
      = st.stats.searchedQueries + 1 := by
  cases h : env.searchCases query with
  | error e => simp [processQuery, h]
  | ok docs =>
      by_cases hd : docs.isEmpty <;>
        simp [processQuery, h, hd, foldl_processDoc_searchedQueries]

lemma foldl_processQuery_searchedQueries (env : KanoonEnv) (limit : ℕ)
    (qs : List String) :
    ∀ st : SyncState, (qs.foldl (processQuery env limit) st).stats.searchedQueries
      = st.stats.searchedQueries + qs.length := by
  induction qs with
  | nil => intro st; rfl
  | cons q qs ih =>
      intro st
      rw [List.foldl_cons, ih, processQuery_searchedQueries, List.length_cons]
      omega

lemma processDoc_count (env : KanoonEnv) (query : String) (st : SyncState)
    (doc : SearchDoc) (h : st.indexedCases.length = st.stats.casesIndexed) :
    (processDoc env query st doc).indexedCases.length
      = (processDoc env query st doc).stats.casesIndexed := by
  cases hf : env.fetchCaseDetails doc.tid <;> simp [processDoc, hf, h]

lemma foldl_processDoc_count (env : KanoonEnv) (query : String) (docs : List SearchDoc) :
    ∀ st : SyncState, st.indexedCases.length = st.stats.casesIndexed →
      (docs.foldl (processDoc env query) st).indexedCases.length
        = (docs.foldl (processDoc env query) st).stats.casesIndexed := by
  induction docs with
  | nil => intro st h; exact h
  | cons d ds ih =>
      intro st h
      rw [List.foldl_cons]
      exact ih _ (processDoc_count env query st d h)

lemma processQuery_count (env : KanoonEnv) (limit : ℕ) (st : SyncState) (query : String)
    (h : st.indexedCases.length = st.stats.casesIndexed) :
    (processQuery env limit st query).indexedCases.length
      = (processQuery env limit st query).stats.casesIndexed := by
  cases hs : env.searchCases query with
  | error e => simp [processQuery, hs, h]
  | ok docs =>
      by_cases hd : docs.isEmpty
      · simp [processQuery, hs, hd, h]
      · simp only [processQuery, hs, hd]
        rw [if_neg (by simp [hd])]
        exact foldl_processDoc_count env query _ _ (by simp [h])

lemma foldl_processQuery_count (env : KanoonEnv) (limit : ℕ) (qs : List String) :
    ∀ st : SyncState, st.indexedCases.length = st.stats.casesIndexed →
      (qs.foldl (processQuery env limit) st).indexedCases.length
        = (qs.foldl (processQuery env limit) st).stats.casesIndexed := by
  induction qs with
  | nil => intro st h; exact h
  | cons q qs ih =>
      intro st h
      rw [List.foldl_cons]
      exact ih _ (processQuery_count env limit st q h)

/-- C5: calling the save path twice with the same `sourceId` and different
payloads leaves exactly one matching record, equal to the first-inserted
payload; duplicate detection matches on `sourceId` or `kanoonUrl`, first
match wins, and the existing record is returned unmodified. -/
theorem saveCaseToDatabase_dedup (store : List CasePrecedent) (p1 p2 : CaseData)
    (n1 n2 : ℕ) (h1 : findDuplicate store p1 = none) (h2 : p2.sourceId = p1.sourceId)
    (h3 : findDuplicate store p2 = none) :
    (∀ (s : List CasePrecedent) (cd : CaseData) (n : ℕ) (r : CasePrecedent),
      findDuplicate s cd = some r → saveCaseToDatabase s cd n = (s, r)) ∧
    (saveCaseToDatabase store p1 n1).1 = store ++ [toRecord p1 store.length n1] ∧
    saveCaseToDatabase (saveCaseToDatabase store p1 n1).1 p2 n2 =
      ((saveCaseToDatabase store p1 n1).1, toRecord p1 store.length n1) ∧
    (((saveCaseToDatabase store p1 n1).1).filter
        (fun r => r.sourceId == p1.sourceId)).length = 1 := by
  have hfirst : saveCaseToDatabase store p1 n1
      = (store ++ [toRecord p1 store.length n1], toRecord p1 store.length n1) := by
    unfold saveCaseToDatabase
    rw [h1]
  have hmatch : (fun r : CasePrecedent =>
      r.sourceId == p2.sourceId || r.kanoonUrl == p2.kanoonUrl)
        (toRecord p1 store.length n1) = true := by
    simp [toRecord, h2]
  have hdup2 : findDuplicate (store ++ [toRecord p1 store.length n1]) p2
      = some (toRecord p1 store.length n1) := by
    unfold findDuplicate at h3 ⊢
    rw [List.find?_append, h3, Option.none_or]
    exact List.find?_cons_of_pos _ hmatch
  refine ⟨?_, ?_, ?_, ?_⟩
  · intro s cd n r h
    unfold saveCaseToDatabase
    rw [h]
  · rw [hfirst]
  · rw [hfirst]
    unfold saveCaseToDatabase
    rw [hdup2]
  · rw [hfirst]
    have hnone : ∀ r ∈ store, ¬(r.sourceId == p1.sourceId || r.kanoonUrl == p1.kanoonUrl) := by
      intro r hr
      exact List.find?_eq_none.mp h1 r hr
    have hstore : store.filter (fun r => r.sourceId == p1.sourceId) = [] := by
      rw [List.filter_eq_nil_iff]
      intro r hr hs
      exact hnone r hr (by simp [hs])
    simp [List.filter_append, hstore, toRecord]

/-- C9: the claimed skip does not happen on the code.  A precedent saved
by `_saveCaseToDatabase` and never embedded carries the Mongoose array
default `[]` in its `embedding` field, so the `{$exists: true}` guard
finds a non-empty set, the query-embedding call is reached, and with no
API key configured `searchSimilarCases` rejects with the
`createEmbedding` error instead of returning the empty sequence. -/
theorem searchSimilarCases_guard_defeated :
    ((saveCaseToDatabase [] ⟨"s1", "u1", "CN1", "T1", 2020, "C", "", "", "", [], []⟩
        2024).1
      = [toRecord ⟨"s1", "u1", "CN1", "T1", 2020, "C", "", "", "", [], []⟩ 0 2024]) ∧
    ((toRecord ⟨"s1", "u1", "CN1", "T1", 2020, "C", "", "", "", [], []⟩ 0 2024).embedding
      = EmbeddingField.arr []) ∧
    (searchSimilarCases (createEmbedding none (fun _ => Except.ok [(1 : ℝ)]))
        [toRecord ⟨"s1", "u1", "CN1", "T1", 2020, "C", "", "", "", [], []⟩ 0 2024]
        "q" 5
      = Except.error ("Failed to create embedding: " ++
          "XAI_API_KEY is not set. Embedding features are disabled.")) :=
  ⟨rfl, rfl, rfl⟩


/-- Witness for C5 at two concrete payloads sharing `sourceId` `"s1"`. -/
theorem saveCaseToDatabase_dedup_witness :
    saveCaseToDatabase
        (saveCaseToDatabase [] ⟨"s1", "u1", "CN1", "T1", 2020, "C", "", "", "", [], []⟩ 2024).1
        ⟨"s1", "u2", "CN2", "T2", 2021, "C", "", "", "", [], []⟩ 2025 =
      ((saveCaseToDatabase [] ⟨"s1", "u1", "CN1", "T1", 2020, "C", "", "", "", [], []⟩ 2024).1,
        toRecord ⟨"s1", "u1", "CN1", "T1", 2020, "C", "", "", "", [], []⟩ 0 2024) ∧
    (((saveCaseToDatabase [] ⟨"s1", "u1", "CN1", "T1", 2020, "C", "", "", "", [], []⟩ 2024).1).filter
        (fun r => r.sourceId == "s1")).length = 1 := by
  have h := saveCaseToDatabase_dedup []
    ⟨"s1", "u1", "CN1", "T1", 2020, "C", "", "", "", [], []⟩
    ⟨"s1", "u2", "CN2", "T2", 2021, "C", "", "", "", [], []⟩ 2024 2025 rfl rfl rfl
  exact ⟨h.2.2.1, h.2.2.2⟩

/-- C6: batch operations never abort on one item's failure.  The query
loop counts every query; a query whose search call fails contributes
exactly one failure record and leaves the store and indexed list
untouched; a document whose detail fetch fails contributes exactly one
failure record (query, identifier, title, message); and the bulk
re-embedding loop reports every unembedded record while a failing
embedding leaves the store unchanged at that step. -/
theorem batchResilience (env : KanoonEnv) (queries : List String) (limit : ℕ)
    (store : List CasePrecedent) (embed : String → Except String (List ℝ)) :
    ((fetchAndIndexCases env queries limit store).1.stats.searchedQueries
      = queries.length) ∧
    (∀ (st : SyncState) (q e : String), env.searchCases q = Except.error e →
      (processQuery env limit st q).failedCases
          = st.failedCases ++ [{ query := q, error := e }] ∧
        (processQuery env limit st q).store = st.store ∧
        (processQuery env limit st q).indexedCases = st.indexedCases) ∧
    (∀ (st : SyncState) (q : String) (d : SearchDoc) (e : String),
      env.fetchCaseDetails d.tid = Except.error e →
      processDoc env q st d =
        { st with
          failedCases := st.failedCases ++
            [{ query := q, docid := some d.tid, title := some d.title, error := e }],
          stats := { st.stats with errors := st.stats.errors + 1 } }) ∧
    ((indexAllCases embed store).1
      = (store.filter (fun c => !c.embedding.isPresent)).length) ∧
    (∀ (s : List CasePrecedent) (c : CasePrecedent) (e : String),
      embed (caseText c) = Except.error e → indexCase embed s c = Except.error e) := by
  refine ⟨?_, ?_, ?_, rfl, ?_⟩
  · show (fetchAndIndexCases env queries limit store).1.stats.searchedQueries = _
    have h := foldl_processQuery_searchedQueries env limit queries
      { store := store : SyncState }
    simpa [fetchAndIndexCases] using h
  · intro st q e h
    refine ⟨?_, ?_, ?_⟩ <;> simp [processQuery, h]
  · intro st q d e h
    simp [processDoc, h]
  · intro s c e h
    simp [indexCase, h]

/-- Witness for C6: three queries whose second search call fails, and a
one-record store whose embedding service is down. -/
theorem batchResilience_witness :
    ((fetchAndIndexCases
        ⟨fun q => if q = "q2" then Except.error "boom" else Except.ok [⟨"11", "T11", ""⟩],
         fun _ => Except.ok ⟨"s", "u", "CN", "T", 2020, "C", "", "", "", [], []⟩, 2024⟩
        ["q1", "q2", "q3"] 5 []).1.stats.searchedQueries = 3) ∧
    ((processQuery
        ⟨fun q => if q = "q2" then Except.error "boom" else Except.ok [⟨"11", "T11", ""⟩],
         fun _ => Except.ok ⟨"s", "u", "CN", "T", 2020, "C", "", "", "", [], []⟩, 2024⟩
        5 { store := [] } "q2").failedCases
      = [{ query := "q2", error := "boom" }]) ∧
    ((indexAllCases (fun _ => Except.error "down")
        [{ id := 1, caseNumber := "CN", title := "T",
           embedding := EmbeddingField.absent }]).1 = 1) := by
  refine ⟨?_, ?_, ?_⟩
  · exact (batchResilience _ ["q1", "q2", "q3"] 5 [] (fun _ => Except.ok [])).1
  · exact ((batchResilience
      ⟨fun q => if q = "q2" then Except.error "boom" else Except.ok [⟨"11", "T11", ""⟩],
       fun _ => Except.ok ⟨"s", "u", "CN", "T", 2020, "C", "", "", "", [], []⟩, 2024⟩
      [] 5 [] (fun _ => Except.ok [])).2.1 { store := [] } "q2" "boom" rfl).1
  · exact (batchResilience
      ⟨fun _ => Except.ok [], fun _ => Except.error "x", 2024⟩ [] 5
      [{ id := 1, caseNumber := "CN", title := "T",
         embedding := EmbeddingField.absent }]
      (fun _ => Except.error "down")).2.2.2.1

/-- C10: `fetchAndIndexCases` is total and returns a report whose success
flag is true exactly when at least one case record came back from the save
step; `casesIndexed` equals the number of collected case records; and a
successfully fetched document increments `casesIndexed` and joins the
indexed list whether the save inserted it or returned an existing
duplicate. -/
theorem fetchAndIndexCases_report (env : KanoonEnv) (queries : List String)
    (limit : ℕ) (store : List CasePrecedent) :
    ((fetchAndIndexCases env queries limit store).1.success = true ↔
      (fetchAndIndexCases env queries limit store).1.cases ≠ []) ∧
    ((fetchAndIndexCases env queries limit store).1.stats.casesIndexed
      = (fetchAndIndexCases env queries limit store).1.cases.length) ∧
    (∀ (st : SyncState) (q : String) (d : SearchDoc) (cd : CaseData),
      env.fetchCaseDetails d.tid = Except.ok cd →
      (processDoc env q st d).stats.casesIndexed = st.stats.casesIndexed + 1 ∧
      (processDoc env q st d).indexedCases
        = st.indexedCases ++ [(saveCaseToDatabase st.store cd env.nowYear).2]) := by
  refine ⟨?_, ?_, ?_⟩
  · simp only [fetchAndIndexCases, decide_eq_true_eq]
    exact ⟨fun h => (List.length_pos.mp h), fun h => List.length_pos.mpr h⟩
  · have h := foldl_processQuery_count env limit queries { store := store : SyncState } rfl
    simpa [fetchAndIndexCases] using h.symm
  · intro st q d cd h
    constructor <;> simp [processDoc, h]

/-- Witness for C10: a store that already contains the fetched document,
so the save step returns the duplicate, which still counts as indexed. -/
theorem fetchAndIndexCases_report_witness :
    ((processDoc ⟨fun _ => Except.ok [], fun _ =>
        Except.ok ⟨"s1", "uX", "CN", "T", 2021, "C", "", "", "", [], []⟩, 2024⟩ "q"
        { store := [{ id := 0, caseNumber := "CN0", title := "T0", sourceId := "s1" }] }
        ⟨"1", "T", ""⟩).stats.casesIndexed = 1) ∧
    ((processDoc ⟨fun _ => Except.ok [], fun _ =>
        Except.ok ⟨"s1", "uX", "CN", "T", 2021, "C", "", "", "", [], []⟩, 2024⟩ "q"
        { store := [{ id := 0, caseNumber := "CN0", title := "T0", sourceId := "s1" }] }
        ⟨"1", "T", ""⟩).indexedCases
      = [{ id := 0, caseNumber := "CN0", title := "T0", sourceId := "s1" }]) := by
  have h := (fetchAndIndexCases_report ⟨fun _ => Except.ok [], fun _ =>
      Except.ok ⟨"s1", "uX", "CN", "T", 2021, "C", "", "", "", [], []⟩, 2024⟩ [] 5 []).2.2
    { store := [{ id := 0, caseNumber := "CN0", title := "T0", sourceId := "s1" }] }
    "q" ⟨"1", "T", ""⟩ ⟨"s1", "uX", "CN", "T", 2021, "C", "", "", "", [], []⟩ rfl
  exact ⟨h.1, h.2⟩

/-! ## RAG analysis orchestrator (`ragService.js`)

The Grok chat endpoint (`callGrokLLM`) is one oracle taking the user
prompt and the system prompt; the vector store, the Kanoon client and the
lawyer collection are further oracles.  The orchestrator itself is pure
control flow around them. -/

def LEGAL_SYSTEM_PROMPT : String :=
  "You are an expert Indian legal advisor specializing in IPC, CrPC, and case law.\n" ++
  "Your task is to analyze legal cases and provide:\n" ++
  "1. Accurate IPC/Section identification.\n" ++
  "2. key legal arguments used in similar precedents.\n" ++
  "3. Strategic advice for the lawyer/client.\n\n" ++
  "Always cite relevant case law. Be precise, factual, and professional."

def classifySystem : String := "You are a legal classifier. Output only the category name."

def classifyPrompt (description : String) : String :=
  "Analyze the following case description and classify it into exactly ONE of these categories: \n" ++
  "    [Criminal, Civil, Corporate, Family, Property, Intellectual Property, Labour, Constitutional, Consumer, Cyber Law].\n" ++
  "    \n    Case Description: \"" ++ description ++ "\"\n    \n" ++
  "    Return ONLY the category name. Do not explain."

def generateQueriesPrompt (description : String) : String :=
  "Generate 2 specific search queries for the Indian Kanoon legal database based on this case description.\n" ++
  "    Focus on key legal terms, IPC sections, and relevant acts.\n" ++
  "    \n    Case Description: \"" ++ description ++ "\"\n    \n" ++
  "    Return ONLY the 2 queries separated by a pipe character (|). Example: \"Section 302 IPC murder precedent | culpable homicide not amounting to murder\""

/-- `category.trim().replace(/['".]/g, '')` (39 is the apostrophe). -/
def stripQuoteDot (s : String) : String :=
  String.mk ((jsTrim s).toList.filter
    (fun c => !(c = Char.ofNat 39 || c = '"' || c = '.')))

/-- `classifyCaseType(description)`: ask the LLM for a single category and
clean it; on any LLM failure fall back to the fixed category `"General"`. -/
def classifyCaseType (grok : String → String → Except String String)
    (description : String) : String :=
  match grok (classifyPrompt description) classifySystem with
  | Except.ok category => stripQuoteDot category
  | Except.error _ => "General"

/-- `generateSearchQueries(description)`: split the LLM answer on `|`,
trim, keep queries longer than 5 characters, take 2; on failure fall back
to the first 100 characters of the description. -/
def generateSearchQueries (grok : String → String → Except String String)
    (description : String) : List String :=
  match grok (generateQueriesPrompt description) "You are a legal search expert." with
  | Except.ok response =>
      (((response.splitOn "|").map jsTrim).filter (fun q => 5 < q.length)).take 2
  | Except.error _ => [description.take 100]

/-- One entry of the merged retrieval context (local rows carry no verdict
field; live rows do). -/
structure RetrievedCase where
  caseId : String
  caseNumber : String
  title : String
  content : String
  similarity : ℝ
  source : String
  verdict : Option String

/-- A lawyer recommendation row (the fields surfaced to the caller). -/
structure LawyerRec where
  id : ℕ
  name : String
  specialization : String
  experience : String
  rating : ℚ
  casesWon : ℕ

/-- Oracles for the RAG pipeline: the Grok chat call, the vector store
search (`vectorStore.searchSimilarCases`, modelled in full above and
abstracted here), the Kanoon search and detail fetch, and the lawyer
query. -/
structure RagEnv where
  grok : String → String → Except String String
  vectorSearch : String → ℕ → Except String (List SimilarCase)
  kanoonSearch : String → Except String (List SearchDoc)
  kanoonFetch : String → Except String CaseData
  lawyers : String → Except String (List LawyerRec)

/-- `findBestLawyers(caseType)`: the ranked lawyer query, with any error
swallowed into an empty recommendation list. -/
def findBestLawyers (env : RagEnv) (caseType : String) : List LawyerRec :=
  match env.lawyers caseType with
  | Except.ok ls => ls
  | Except.error _ => []

/-- Step 0 of `analyzeWithRAG`: use the caller's hint unless it is
null/empty/`"General"`, in which case auto-classify. -/
def ragCaseType (env : RagEnv) (description : String) (caseType : Option String) :
    String :=
  match caseType with
  | none => classifyCaseType env.grok description
  | some s => if s = "" || s = "General" then classifyCaseType env.grok description else s

/-- Step 1: local vector search over `"{caseType} case: {description}"`
with `k = 3`; failure is non-fatal and yields no local rows. -/
def ragLocalCases (env : RagEnv) (description caseType : String) : List RetrievedCase :=
  match env.vectorSearch (caseType ++ " case: " ++ description) 3 with
  | Except.ok localResults =>
      localResults.map (fun r =>
        { caseId := toString r.caseId, caseNumber := r.caseNumber, title := r.title,
          content := r.content, similarity := r.similarity, source := "Local DB",
          verdict := none })
  | Except.error _ => []

/-- A shallow live hit from the Kanoon search. -/
def liveDoc (doc : SearchDoc) : RetrievedCase :=
  { caseId := doc.tid, caseNumber := doc.tid, title := doc.title,
    content := if doc.headline ≠ "" then doc.headline else doc.title,
    similarity := 0.9, source := "Live Indian Kanoon",
    verdict := some "Refer to full judgment" }

/-- Best-effort enrichment of the first live hit with a full detail fetch;
a failed fetch keeps the shallow hit. -/
def enrichFirst (fetch : String → Except String CaseData) :
    List RetrievedCase → List RetrievedCase
  | [] => []
  | d0 :: rest =>
    match fetch d0.caseId with
    | Except.ok fullDetails =>
        { d0 with
          content := if fullDetails.summary ≠ "" then fullDetails.summary
                     else fullDetails.decision.take 1000,
          verdict := some (fullDetails.decision.take 200 ++ "...") } :: rest
    | Except.error _ => d0 :: rest

/-- Steps 2–3 of `analyzeWithRAG`: generate live queries, search Kanoon
with the first, take two hits and enrich the first; every failure in this
step contributes nothing instead of failing the call. -/
def ragLiveCases (env : RagEnv) (description : String) : List RetrievedCase :=
  match generateSearchQueries env.grok description with
  | [] => []
  | q0 :: _ =>
    match env.kanoonSearch q0 with
    | Except.error _ => []
    | Except.ok docs =>
        if docs.isEmpty then []
        else enrichFirst env.kanoonFetch ((docs.take 2).map liveDoc)

/-- The merged retrieval context: local rows first, live rows appended. -/
def ragRetrieved (env : RagEnv) (description caseType : String) : List RetrievedCase :=
  ragLocalCases env description caseType ++ ragLiveCases env description

/-- `createAugmentedPrompt(caseDescription, caseType, retrievedCases)`. -/
def precedentEntry (idx : ℕ) (c : RetrievedCase) : String :=
  "\n" ++ toString (idx + 1) ++ ". Case: " ++
    (if c.caseNumber ≠ "" then c.caseNumber else c.title) ++ "\n" ++
  "   Title: " ++ c.title ++ "\n" ++
  "   Source: " ++ (if c.source ≠ "" then c.source else "Local Database") ++ "\n" ++
  "   Summary: " ++ c.content ++ "\n" ++
  "   Verdict: " ++ c.verdict.getD "Not specified" ++ "\n"

def createAugmentedPrompt (caseDescription caseType : String)
    (retrievedCases : List RetrievedCase) : String :=
  let contextSection :=
    if retrievedCases.isEmpty then ""
    else "\n\nSIMILAR PRECEDENT CASES (Analyze these for arguments):\n" ++
      String.join (retrievedCases.enum.map (fun p => precedentEntry p.1 p.2))
  "CASE TYPE: " ++ caseType ++ "\n\nUSER" ++ String.mk [Char.ofNat 39] ++
  "S CASE DETAILS:\n" ++ caseDescription ++ "\n" ++ contextSection ++
  "\n\nREQUIRED STRUCTURAL ANALYSIS:\n" ++
  "1. **Applicable IPC Sections**: List specific sections with brief reasoning.\n" ++
  "2. **Key Legal Arguments**: Extract potential arguments for both prosecution/plaintiff and defense based on the precedents.\n" ++
  "3. **Strategic Roadmap**: Recommended legal steps.\n" ++
  "4. **Risk Assessment**: (High/Medium/Low) with justification.\n" ++
  "5. **Verdict Prediction**: Based on precedents.\n\n" ++
  "Provide a comprehensive legal analysis."

/-- The prompt handed to the fatal main analysis call. -/
def ragMainPrompt (env : RagEnv) (description : String) (caseType : Option String) :
    String :=
  createAugmentedPrompt description (ragCaseType env description caseType)
    (ragRetrieved env description (ragCaseType env description caseType))

/-- The caller-visible summary of one retrieved case. -/
structure RetrievedSummary where
  caseId : String
  caseNumber : String
  title : String
  similarity : ℝ
  verdict : Option String
  source : String

/-- The successful result of one `analyzeWithRAG` call. -/
structure RagResult where
  success : Bool
  caseType : String
  analysis : AnalysisResult
  retrievedCases : List RetrievedSummary
  recommendedLawyers : List LawyerRec
  fullResponse : String

/-- `analyzeWithRAG(caseDescription, caseType)`: classify (non-fatal),
retrieve locally and live (non-fatal), build the augmented prompt, invoke
the main Grok analysis call — whose failure alone is rethrown to the
caller — then parse the response and attach lawyer recommendations. -/
def analyzeWithRAG (env : RagEnv) (description : String) (caseType : Option String) :
    Except String RagResult :=
  match env.grok (ragMainPrompt env description caseType) LEGAL_SYSTEM_PROMPT with
  | Except.error e => Except.error e
  | Except.ok responseText =>
      Except.ok
        { success := true
          caseType := ragCaseType env description caseType
          analysis := parseAnalysisResponse responseText
          retrievedCases :=
            (ragRetrieved env description (ragCaseType env description caseType)).map
              (fun rc =>
                { caseId := rc.caseId, caseNumber := rc.caseNumber, title := rc.title,
                  similarity := rc.similarity, verdict := rc.verdict,
                  source := if rc.source ≠ "" then rc.source else "Local DB" })
          recommendedLawyers := findBestLawyers env (ragCaseType env description caseType)
          fullResponse := responseText }

/-! ## Theorem for the RAG failure semantics (claim C4) -/

/-- C4: a failing classification LLM call is swallowed and replaced by the
fixed default category `"General"` so the analysis continues, whereas a
failing main legal-analysis LLM call propagates to the caller with the
upstream message and no fallback result; when the main call succeeds the
whole analysis succeeds. -/
theorem analyzeWithRAG_failure_semantics (env : RagEnv) (description : String)
    (caseType : Option String) (e m : String) :
    (env.grok (classifyPrompt description) classifySystem = Except.error e →
      classifyCaseType env.grok description = "General") ∧
    (env.grok (ragMainPrompt env description caseType) LEGAL_SYSTEM_PROMPT
        = Except.error m →
      analyzeWithRAG env description caseType = Except.error m) ∧
    (∀ resp, env.grok (ragMainPrompt env description caseType) LEGAL_SYSTEM_PROMPT
        = Except.ok resp →
      ∃ result, analyzeWithRAG env description caseType = Except.ok result ∧
        result.fullResponse = resp) := by
  refine ⟨?_, ?_, ?_⟩
  · intro h
    simp [classifyCaseType, h]
  · intro h
    simp [analyzeWithRAG, h]
  · intro resp h
    unfold analyzeWithRAG
    rw [h]
    exact ⟨_, rfl, rfl⟩

/-- Witness for C4: an always-failing LLM yields the `"General"` fallback
for classification but a propagated error for the full analysis, and an
always-succeeding LLM yields a successful analysis. -/
theorem analyzeWithRAG_failure_semantics_witness :
    classifyCaseType (fun _ _ => Except.error "llm down") "desc" = "General" ∧
    analyzeWithRAG
        ⟨fun _ _ => Except.error "llm down", fun _ _ => Except.ok [],
         fun _ => Except.ok [], fun _ => Except.error "x", fun _ => Except.ok []⟩
        "desc" none = Except.error "llm down" ∧
    ∃ result, analyzeWithRAG
        ⟨fun _ _ => Except.ok "Criminal", fun _ _ => Except.ok [],
         fun _ => Except.ok [], fun _ => Except.error "x", fun _ => Except.ok []⟩
        "desc" none = Except.ok result ∧ result.fullResponse = "Criminal" := by
  refine ⟨?_, ?_, ?_⟩
  · exact (analyzeWithRAG_failure_semantics
      ⟨fun _ _ => Except.error "llm down", fun _ _ => Except.ok [],
       fun _ => Except.ok [], fun _ => Except.error "x", fun _ => Except.ok []⟩
      "desc" none "llm down" "llm down").1 rfl
  · exact (analyzeWithRAG_failure_semantics
      ⟨fun _ _ => Except.error "llm down", fun _ _ => Except.ok [],
       fun _ => Except.ok [], fun _ => Except.error "x", fun _ => Except.ok []⟩
      "desc" none "llm down" "llm down").2.1 rfl
  · exact (analyzeWithRAG_failure_semantics
      ⟨fun _ _ => Except.ok "Criminal", fun _ _ => Except.ok [],
       fun _ => Except.ok [], fun _ => Except.error "x", fun _ => Except.ok []⟩
      "desc" none "x" "x").2.2 "Criminal" rfl

end Verdix
